import Mathlib

/-!
Verification development for the video compression engine of the Vidzilla
repository (utils/video_compression.py).

The Python module is shallowly embedded: pure helpers become Lean functions
over ℚ (file sizes in MB, durations in seconds) and ℤ (pixel dimensions);
the exception taxonomy becomes an inductive type; fallible operations return
Except; the effectful environment (filesystem, FFmpeg availability, disk
space, the encoder subprocess) is an explicit record of oracles, so that the
control flow of compress_if_needed, the progressive ladder and the metadata
probe can be replayed and proved about deterministically.
-/

set_option autoImplicit false

namespace Vidzilla

/-- Exception taxonomy of utils/video_compression.py.  `base` stands for a
plain CompressionError (or any other unexpected exception) carrying its
message, the remaining constructors are the typed subclasses. -/
inductive CompressionExc where
  | ffmpegNotFound
  | timeout (msg : String)
  | insufficientDisk
  | unsupportedFormat
  | videoCorrupted
  | qualityError
  | fileNotFound
  | base (msg : String)
  deriving DecidableEq

/-- get_compression_error_message: user-facing text per exception kind.  The
final isinstance-else branch of the source formats unexpected errors. -/
def get_compression_error_message : CompressionExc → String
  | CompressionExc.ffmpegNotFound => "FFmpeg is not available on the system"
  | CompressionExc.timeout _ => "Compression timeout after specified time limit"
  | CompressionExc.insufficientDisk => "Insufficient disk space for compression"
  | CompressionExc.unsupportedFormat => "Unsupported video format for compression"
  | CompressionExc.videoCorrupted => "Video file is corrupted or damaged"
  | CompressionExc.qualityError => "Compression failed to achieve target size"
  | CompressionExc.fileNotFound => "Input video file not found"
  | CompressionExc.base msg => "Unexpected compression error: " ++ msg

/-- VideoInfo dataclass: probed metadata of one file. -/
structure VideoInfo where
  width : ℤ
  height : ℤ
  duration : ℚ
  fps : ℚ
  bitrate : ℤ
  codec : String
  size_mb : ℚ
  deriving DecidableEq

/-- CompressionResult dataclass.  `ratio_to_original` embeds the source field
compression_ratio (compressed size divided by original size). -/
structure CompressionResult where
  success : Bool
  original_path : String
  compressed_path : Option String
  original_size_mb : ℚ
  compressed_size_mb : Option ℚ
  ratio_to_original : Option ℚ
  processing_time : ℚ
  error_message : Option String
  deriving DecidableEq

/-- Rational multiplication, written through Rat.divInt so that concrete
instances of the embedding evaluate inside the kernel; `qmul_eq` identifies
it with the ordinary product. -/
def qmul (a b : ℚ) : ℚ := Rat.divInt (a.num * b.num) ((a.den : ℤ) * (b.den : ℤ))

/-- Rational division, written through Rat.divInt so that concrete instances
of the embedding evaluate inside the kernel; `qdiv_eq` identifies it with the
ordinary quotient (with the 0-divisor convention of ℚ). -/
def qdiv (a b : ℚ) : ℚ := Rat.divInt (a.num * (b.den : ℤ)) ((a.den : ℤ) * b.num)

/-- Embedding of an integer into ℚ, written through Rat.divInt so that
concrete instances evaluate inside the kernel; `qOfInt_eq` identifies it with
the coercion. -/
def qOfInt (n : ℤ) : ℚ := Rat.divInt n 1

/-- calculate_compression_ratio: guarded division, 0.0 for non-positive
original sizes. -/
def fractionOfOriginal (original_size_mb compressed_size_mb : ℚ) : ℚ :=
  if original_size_mb ≤ 0 then 0 else qdiv compressed_size_mb original_size_mb

/-- get_file_size_mb over an abstract filesystem `sz` mapping a path to the
size of the file stored there (none when the file does not exist): missing
files count as 0.0 MB. -/
def get_file_size_mb (sz : String → Option ℚ) (p : String) : ℚ :=
  match sz p with
  | none => 0
  | some s => s

/-- validate_file_size: existence plus the size bound. -/
def validate_file_size (sz : String → Option ℚ) (p : String) (max_size_mb : ℚ) : Bool :=
  match sz p with
  | none => false
  | some s => decide (s ≤ max_size_mb)

/-- check_video_size_against_limit: (needs_compression, file_size_mb); a
missing file yields (false, 0). -/
def check_video_size_against_limit (sz : String → Option ℚ) (p : String)
    (size_limit_mb : ℚ) : Bool × ℚ :=
  match sz p with
  | none => (false, 0)
  | some s => (decide (size_limit_mb < s), s)

/-- create_compression_result: derives compressed_size_mb and the ratio only
when the call succeeded, a compressed path was produced and that file exists
on disk. -/
def create_compression_result (sz : String → Option ℚ) (success : Bool)
    (original_path : String) (compressed_path : Option String)
    (processing_time : ℚ) (error_message : Option String) : CompressionResult :=
  let original := get_file_size_mb sz original_path
  let cs : Option ℚ × Option ℚ :=
    match compressed_path with
    | some p =>
        if success && (sz p).isSome then
          (some (get_file_size_mb sz p),
            some (fractionOfOriginal original (get_file_size_mb sz p)))
        else (none, none)
    | none => (none, none)
  { success := success
    original_path := original_path
    compressed_path := compressed_path
    original_size_mb := original
    compressed_size_mb := cs.1
    ratio_to_original := cs.2
    processing_time := processing_time
    error_message := error_message }

/-- Environment of one compress_if_needed call: the filesystem facts and the
outcomes of the effectful collaborators it consults.  `compressResult`
abstracts the awaited compress_video call (modelled in detail below as the
progressive strategy): either the bool it returns or the exception it raises,
with `encoderInvocations` counting the encoder subprocesses it launched and
`tempOutput` the size of the temp output file it left behind (none when the
file does not exist). -/
structure Env where
  videoPath : String
  tempPath : String
  inputExists : Bool
  inputSizeMB : ℚ
  ffmpegAvailable : Bool
  diskOk : ℚ → Bool
  createTemp : Option CompressionExc
  compressResult : Except CompressionExc Bool
  encoderInvocations : ℕ
  tempOutput : Option ℚ
  elapsed : ℚ

/-- The filesystem view induced by an environment: the input file and the
temp output file are the only paths compress_if_needed ever stats. -/
def sizeLookup (env : Env) : String → Option ℚ := fun p =>
  if p = env.videoPath then (if env.inputExists then some env.inputSizeMB else none)
  else if p = env.tempPath then env.tempOutput
  else none

/-- One failure return of compress_if_needed: every except-handler of the
source builds this same shape (success=False, no compressed path, a message
derived from the caught exception). -/
def failureResult (sz : String → Option ℚ) (original_path : String)
    (elapsed : ℚ) (e : CompressionExc) : CompressionResult :=
  create_compression_result sz false original_path none elapsed
    (some (get_compression_error_message e))

/-- VideoCompressor.compress_if_needed.  Returns the structured result
together with the number of encoder subprocess launches that occurred.
Control flow of the source, in order: existence check, FFmpeg availability
check, size gate (fast path), disk-space gate at 2x the input size, temp file
creation, the awaited compress_video call, and the validate_file_size check
against max_size_mb.  The three except-handlers all produce `failureResult`;
the monitoring calls (monitor_disk_usage, CompressionOperationLogger, the
swallowed get_video_info for logging) do not affect the returned value and
are not modelled. -/
def compress_if_needed (env : Env) (max_size_mb : ℚ) (cfgTarget : Option ℚ) :
    CompressionResult × ℕ :=
  let sz := sizeLookup env
  if (sz env.videoPath).isSome = false then
    (failureResult sz env.videoPath env.elapsed CompressionExc.fileNotFound, 0)
  else if env.ffmpegAvailable = false then
    (failureResult sz env.videoPath env.elapsed CompressionExc.ffmpegNotFound, 0)
  else
    let check := check_video_size_against_limit sz env.videoPath max_size_mb
    if check.1 = false then
      (create_compression_result sz true env.videoPath (some env.videoPath)
        env.elapsed none, 0)
    else if env.diskOk (qmul check.2 2) = false then
      (failureResult sz env.videoPath env.elapsed CompressionExc.insufficientDisk, 0)
    else
      match env.createTemp with
      | some e => (failureResult sz env.videoPath env.elapsed e, 0)
      | none =>
          let _target_size_mb := cfgTarget.getD (qmul max_size_mb (qdiv 9 10))
          match env.compressResult with
          | Except.error e =>
              (failureResult sz env.videoPath env.elapsed e, env.encoderInvocations)
          | Except.ok ok =>
              if ok && validate_file_size sz env.tempPath max_size_mb then
                (create_compression_result sz true env.videoPath
                  (some env.tempPath) env.elapsed none, env.encoderInvocations)
              else
                (failureResult sz env.videoPath env.elapsed
                  CompressionExc.qualityError, env.encoderInvocations)

/-- A frame-rate field of the probe output: either a fraction string
("num/den") or a plain number string. -/
inductive FpsField where
  | fractionStr (num den : ℤ)
  | plainStr (v : ℚ)
  deriving DecidableEq

/-- One stream entry of the probe output.  width and height model
int(stream.get(..., 0)), so an absent field is already 0; the remaining
fields keep their optionality. -/
structure StreamData where
  codec_type : String
  width : ℤ
  height : ℤ
  duration : Option ℚ
  r_frame_rate : Option FpsField
  avg_frame_rate : Option FpsField
  bit_rate : Option ℤ
  codec_name : Option String
  deriving DecidableEq

/-- The parsed probe document: stream list plus container-level fields. -/
structure ProbeData where
  streams : List StreamData
  format_duration : Option ℚ
  format_bit_rate : Option ℤ
  deriving DecidableEq

/-- Substring occurrence test used to classify probe stderr text. -/
def containsSub (s pat : String) : Bool := decide ((s.splitOn pat).length > 1)

/-- The ffmpeg.Error branch of get_video_info: map probe stderr text to the
raised exception. -/
def classifyProbeError (stderr : String) : CompressionExc :=
  if containsSub stderr "Invalid data found" || containsSub stderr "moov atom not found" then
    CompressionExc.videoCorrupted
  else if containsSub stderr "Unknown format" || containsSub stderr "Invalid argument" then
    CompressionExc.unsupportedFormat
  else CompressionExc.videoCorrupted

/-- First stream whose codec_type is "video". -/
def findVideoStream : List StreamData → Option StreamData
  | [] => none
  | s :: rest => if s.codec_type = "video" then some s else findVideoStream rest

/-- Reduce one frame-rate field to a float: a fraction string is divided only
when its denominator is non-zero, otherwise the running value 0.0 is kept. -/
def fpsOfField : FpsField → ℚ
  | FpsField.fractionStr n d => if d ≠ 0 then qdiv (qOfInt n) (qOfInt d) else 0
  | FpsField.plainStr v => v

/-- Frame-rate extraction: r_frame_rate takes precedence over
avg_frame_rate; with neither present fps stays 0.0. -/
def extractFps (s : StreamData) : ℚ :=
  match s.r_frame_rate with
  | some f => fpsOfField f
  | none =>
      match s.avg_frame_rate with
      | some f => fpsOfField f
      | none => 0

/-- Duration of the video stream, falling back to the container-level field,
defaulting to 0.0. -/
def durationOf (pd : ProbeData) (s : StreamData) : ℚ :=
  match s.duration with
  | some d => d
  | none =>
      match pd.format_duration with
      | some d => d
      | none => 0

/-- Bitrate of the video stream, falling back to the container-level field,
defaulting to 0. -/
def bitrateOf (pd : ProbeData) (s : StreamData) : ℤ :=
  match s.bit_rate with
  | some b => b
  | none =>
      match pd.format_bit_rate with
      | some b => b
      | none => 0

/-- get_video_info: existence check, FFmpeg availability check, probe,
stream selection, field extraction and validation.  `probe` is the outcome
of ffmpeg.probe: either the parsed document or the stderr text of the tool
failure. -/
def get_video_info (fileExists ffmpegAvailable : Bool) (size_mb : ℚ)
    (probe : Except String ProbeData) : Except CompressionExc VideoInfo :=
  if fileExists = false then Except.error CompressionExc.fileNotFound
  else if ffmpegAvailable = false then Except.error CompressionExc.ffmpegNotFound
  else
    match probe with
    | Except.error stderr => Except.error (classifyProbeError stderr)
    | Except.ok pd =>
        match findVideoStream pd.streams with
        | none => Except.error CompressionExc.unsupportedFormat
        | some vs =>
            let width := vs.width
            let height := vs.height
            let duration := durationOf pd vs
            let fps := extractFps vs
            let bitrate := bitrateOf pd vs
            let codec := vs.codec_name.getD "unknown"
            if width ≤ 0 ∨ height ≤ 0 then Except.error CompressionExc.videoCorrupted
            else if duration ≤ 0 then Except.error CompressionExc.videoCorrupted
            else
              Except.ok
                { width := width, height := height, duration := duration, fps := fps,
                  bitrate := bitrate, codec := codec, size_mb := size_mb }

/-- Python int(): truncation of a rational toward zero. -/
def pyInt (q : ℚ) : ℤ := q.num.tdiv (q.den : ℤ)

/-- The arithmetic heart of estimate_compression_time: base rate of 1 s/MB,
resolution, duration, codec and fps factors, a 1.3 safety buffer, truncation
to int and clamping to the [10, 600] band. -/
def estimateSeconds (vi : VideoInfo) : ℤ :=
  let base_time : ℚ := qmul vi.size_mb 1
  let total_pixels := vi.width * vi.height
  let resolution_factor : ℚ :=
    if total_pixels > 3840 * 2160 then 3
    else if total_pixels > 1920 * 1080 then 2
    else if total_pixels > 1280 * 720 then qdiv 3 2
    else 1
  let duration_factor : ℚ := max 1 (qdiv vi.duration 60)
  let codec_factor : ℚ :=
    if vi.codec = "hevc" ∨ vi.codec = "h265" ∨ vi.codec = "av1" then qdiv 9 5
    else if vi.codec = "vp9" ∨ vi.codec = "vp8" then qdiv 13 10
    else 1
  let fps_factor : ℚ :=
    if vi.fps > 60 then qdiv 3 2 else if vi.fps > 30 then qdiv 6 5 else 1
  let estimated_time :=
    qmul (qmul (qmul (qmul base_time resolution_factor) duration_factor) codec_factor)
      fps_factor
  max 10 (min 600 (pyInt (qmul estimated_time (qdiv 13 10))))

/-- The re-raise list of estimate_compression_time: exactly the four typed
exceptions get_video_info can raise. -/
def isProbeReraised : CompressionExc → Bool
  | CompressionExc.fileNotFound => true
  | CompressionExc.videoCorrupted => true
  | CompressionExc.unsupportedFormat => true
  | CompressionExc.ffmpegNotFound => true
  | _ => false

/-- estimate_compression_time over the outcome of the inner get_video_info
call: the four typed probe exceptions are re-raised, any other exception
inside the try block falls to the generic handler returning the fixed
default of 120 seconds; a successful probe feeds `estimateSeconds`. -/
def estimate_compression_time (p : Except CompressionExc VideoInfo) :
    Except CompressionExc ℤ :=
  match p with
  | Except.ok vi => Except.ok (estimateSeconds vi)
  | Except.error e =>
      if isProbeReraised e then Except.error e else Except.ok 120

/-- The raw resolution ladder of _progressive_compression_strategy: original,
configured maximum, 480p, 360p, in that order. -/
def resolutionLevels (vw vh : ℤ) (max_resolution : ℤ × ℤ) : List (ℤ × ℤ) :=
  [(vw, vh), max_resolution, (854, 480), (640, 360)]

/-- The filtered ladder: the source keeps an entry when its width fits the
original width OR its height fits the original height, and substitutes the
original resolution when nothing passes. -/
def validResolutionLevels (vw vh : ℤ) (max_resolution : ℤ × ℤ) : List (ℤ × ℤ) :=
  let valid := (resolutionLevels vw vh max_resolution).filter
    (fun p => decide (p.1 ≤ vw) || decide (p.2 ≤ vh))
  if valid.isEmpty then [(vw, vh)] else valid

/-- The downscale-and-aspect step of _calculate_output_dimensions before
even-rounding: clamp to the caps, then shrink one side so the rational
aspect ratio of the original is restored, truncating toward zero as
Python int() does. -/
def scaledDims (ow oh mw mh : ℤ) : ℤ × ℤ :=
  let w0 := min ow mw
  let h0 := min oh mh
  let aspect : ℚ := qdiv (qOfInt ow) (qOfInt oh)
  if qdiv (qOfInt w0) (qOfInt h0) > aspect then (pyInt (qmul (qOfInt h0) aspect), h0)
  else (w0, pyInt (qdiv (qOfInt w0) aspect))

/-- _calculate_output_dimensions: scale into the caps keeping aspect ratio,
round both sides down to even, then floor at the 320x240 minimum (in that
order). -/
def calcOutputDimensions (ow oh mw mh : ℤ) : ℤ × ℤ :=
  let wh := scaledDims ow oh mw mh
  let w2 := wh.1 - wh.1 % 2
  let h2 := wh.2 - wh.2 % 2
  (max w2 320, max h2 240)

/-- Outcome of one _attempt_compression call together with the size
measurement that follows it: the encoder finished and left an output of the
given size, it exceeded the per-attempt timeout, or it raised. -/
inductive AttemptOutcome where
  | ok (size_mb : ℚ)
  | timeout
  | fail (e : CompressionExc)
  deriving DecidableEq

/-- Result of the strategy loop: the bool it returns or the exception it
raises. -/
inductive StratOutcome where
  | finished (b : Bool)
  | raised (e : CompressionExc)
  deriving DecidableEq

/-- Message of the circuit-breaker abort. -/
def multiTimeoutMsg : String := "Multiple compression attempts timed out"

/-- Message of the timeouts-dominated ladder-exhaustion error. -/
def allTimeoutMsg : String := "All compression attempts timed out"

/-- The attempt loop of _progressive_compression_strategy over the flattened
(resolution, quality) ladder.  Each list entry carries the computed output
dimensions and the attempt outcome; the accumulators are the cumulative
timeout counter and the last error.  Returns the loop result and the number
of encoder invocations performed (attempts skipped by the minimum-pixels
check launch no encoder).  tmsg is the per-attempt timeout message stored in
last_error. -/
def runAttempts (target : ℚ) (tmsg : String) :
    List ((ℤ × ℤ) × AttemptOutcome) → ℕ → Option CompressionExc → StratOutcome × ℕ
  | [], timeoutCount, lastError =>
      if timeoutCount > 0 then
        (StratOutcome.raised (CompressionExc.timeout allTimeoutMsg), 0)
      else
        match lastError with
        | some e => (StratOutcome.raised e, 0)
        | none => (StratOutcome.raised CompressionExc.qualityError, 0)
  | (d, o) :: rest, timeoutCount, lastError =>
      if d.1 * d.2 < 320 * 240 then runAttempts target tmsg rest timeoutCount lastError
      else
        match o with
        | AttemptOutcome.ok s =>
            if s ≤ target then (StratOutcome.finished true, 1)
            else
              let r := runAttempts target tmsg rest timeoutCount lastError
              (r.1, r.2 + 1)
        | AttemptOutcome.timeout =>
            if timeoutCount + 1 ≥ 3 then
              (StratOutcome.raised (CompressionExc.timeout multiTimeoutMsg), 1)
            else
              let r := runAttempts target tmsg rest (timeoutCount + 1)
                (some (CompressionExc.timeout tmsg))
              (r.1, r.2 + 1)
        | AttemptOutcome.fail e =>
            let r := runAttempts target tmsg rest timeoutCount (some e)
            (r.1, r.2 + 1)

/-- Configuration keys _progressive_compression_strategy reads. -/
structure StratConfig where
  quality_levels : List ℤ
  max_resolution : ℤ × ℤ
  timeout_seconds : ℤ
  deriving DecidableEq

/-- The flattened attempt ladder: resolution levels outer, quality levels
inner, each attempt carrying its computed output dimensions. -/
def strategyAttemptDims (cfg : StratConfig) (vi : VideoInfo) : List (ℤ × ℤ) :=
  (validResolutionLevels vi.width vi.height cfg.max_resolution).flatMap
    (fun mr => cfg.quality_levels.map
      (fun _ => calcOutputDimensions vi.width vi.height mr.1 mr.2))

/-- _progressive_compression_strategy: run the attempt loop over the ladder,
the i-th attempt resolving to oracle i. -/
def progressive_compression_strategy (cfg : StratConfig) (target : ℚ)
    (vi : VideoInfo) (oracle : ℕ → AttemptOutcome) : StratOutcome × ℕ :=
  let attempts := (strategyAttemptDims cfg vi).enum.map (fun p => (p.2, oracle p.1))
  runAttempts target
    ("Compression timeout after " ++ toString cfg.timeout_seconds ++ " seconds")
    attempts 0 none

/-- True when the attempt would not be skipped by the minimum-pixels check. -/
def notSkipped (a : (ℤ × ℤ) × AttemptOutcome) : Bool :=
  !(decide (a.1.1 * a.1.2 < 320 * 240))

/-- Number of encoder invocations a list of attempts performs when none of
them terminates the loop. -/
def executedCount (l : List ((ℤ × ℤ) × AttemptOutcome)) : ℕ :=
  (l.filter notSkipped).length

/-- Recogniser for timeout outcomes. -/
def isTimeoutOutcome : AttemptOutcome → Bool
  | AttemptOutcome.timeout => true
  | _ => false

/-- Number of non-skipped timeout attempts in a list. -/
def timeoutsIn (l : List ((ℤ × ℤ) × AttemptOutcome)) : ℕ :=
  (l.filter (fun a => notSkipped a && isTimeoutOutcome a.2)).length

/-- An attempt neither succeeds under the target nor is it anything but a
pass-through of the loop: used to say a prefix of the ladder keeps the loop
running. -/
def noEarlyReturn (target : ℚ) (a : (ℤ × ℤ) × AttemptOutcome) : Bool :=
  !(notSkipped a) ||
    (match a.2 with
     | AttemptOutcome.ok s => decide (target < s)
     | _ => true)

/-- Three timeouts in a row somewhere in an outcome sequence. -/
def threeConsecutiveTimeouts : List AttemptOutcome → Bool
  | AttemptOutcome.timeout :: AttemptOutcome.timeout :: AttemptOutcome.timeout :: _ => true
  | _ :: rest => threeConsecutiveTimeouts rest
  | [] => false

/-- Formalization of "deduplicated" for the ladder claim: no entry occurs
twice. -/
def pairwiseDistinct : List (ℤ × ℤ) → Bool
  | [] => true
  | a :: rest => rest.all (fun b => !(decide (a = b))) && pairwiseDistinct rest

/-- Formalization of "non-increasing" for the pixel-count claim. -/
def nonIncreasing : List ℤ → Bool
  | a :: b :: rest => decide (b ≤ a) && nonIncreasing (b :: rest)
  | _ => true

/-- A probed video stream whose frame rate is the fraction string 30/0. -/
def streamZeroDen : StreamData :=
  { codec_type := "video"
    width := 1280
    height := 720
    duration := some 10
    r_frame_rate := some (FpsField.fractionStr 30 0)
    avg_frame_rate := none
    bit_rate := some 1000
    codec_name := some "h264" }

/-- A probe document containing only `streamZeroDen`. -/
def pdZeroDen : ProbeData :=
  { streams := [streamZeroDen]
    format_duration := none
    format_bit_rate := none }

/-- An environment with an existing 10 MB input file but no FFmpeg binary. -/
def envNoFfmpeg : Env :=
  { videoPath := "video.mp4"
    tempPath := "tmp_output.mp4"
    inputExists := true
    inputSizeMB := 10
    ffmpegAvailable := false
    diskOk := fun _ => true
    createTemp := none
    compressResult := Except.ok false
    encoderInvocations := 0
    tempOutput := none
    elapsed := 0 }

/-- The same environment with FFmpeg available: a 10 MB input under every
limit used below. -/
def envUnderLimit : Env := { envNoFfmpeg with ffmpegAvailable := true }

/-- A 48 MB input: under the 50 MB limit but over a 45 MB (or 1 MB)
configured target. -/
def envTargetMiss : Env := { envUnderLimit with inputSizeMB := 48 }

/-- A 0-byte input file that exists. -/
def envZeroSize : Env := { envUnderLimit with inputSizeMB := 0 }

/-- The default strategy configuration of the source. -/
def cfgDefault : StratConfig :=
  { quality_levels := [28, 32, 36]
    max_resolution := (1280, 720)
    timeout_seconds := 300 }

/-- A 100 MB 1080p input video. -/
def viLarge : VideoInfo :=
  { width := 1920
    height := 1080
    duration := 60
    fps := 30
    bitrate := 5000000
    codec := "h264"
    size_mb := 100 }

/-- An attempt oracle whose timeouts are scattered (attempts 1, 3 and 4 time
out, attempt 2 fails for another reason, every later attempt would succeed):
at no point do three timeouts occur consecutively. -/
def oracleScattered : ℕ → AttemptOutcome := fun n =>
  match n with
  | 0 => AttemptOutcome.timeout
  | 1 => AttemptOutcome.fail (CompressionExc.base "boom")
  | 2 => AttemptOutcome.timeout
  | 3 => AttemptOutcome.timeout
  | _ => AttemptOutcome.ok 10

/-! Theorems.  First the bridge lemmas identifying the kernel-computable
arithmetic wrappers with the ordinary field operations of ℚ, and small
helper lemmas about the embedded definitions; then one theorem (plus
witness or counterexample) per claim. -/

theorem qOfInt_eq (n : ℤ) : qOfInt n = (n : ℚ) := by
  rw [qOfInt, Rat.divInt_eq_div]
  simp

theorem qmul_eq (a b : ℚ) : qmul a b = a * b := by
  rw [qmul, Rat.divInt_eq_div]
  push_cast
  rw [mul_div_mul_comm, Rat.num_div_den, Rat.num_div_den]

theorem qdiv_eq (a b : ℚ) : qdiv a b = a / b := by
  rw [qdiv, Rat.divInt_eq_div]
  push_cast
  rw [mul_div_mul_comm, div_eq_mul_inv a b, Rat.num_div_den]
  rw [show ((b.den : ℚ)) / (b.num : ℚ) = ((b.num : ℚ) / (b.den : ℚ))⁻¹ from
    (inv_div _ _).symm]
  rw [Rat.num_div_den]

@[simp] theorem create_res_success (sz : String → Option ℚ) (s : Bool) (p : String)
    (cp : Option String) (t : ℚ) (em : Option String) :
    (create_compression_result sz s p cp t em).success = s := rfl

@[simp] theorem create_res_error_message (sz : String → Option ℚ) (s : Bool) (p : String)
    (cp : Option String) (t : ℚ) (em : Option String) :
    (create_compression_result sz s p cp t em).error_message = em := rfl

@[simp] theorem create_res_compressed_path (sz : String → Option ℚ) (s : Bool) (p : String)
    (cp : Option String) (t : ℚ) (em : Option String) :
    (create_compression_result sz s p cp t em).compressed_path = cp := rfl

@[simp] theorem failureResult_success (sz : String → Option ℚ) (p : String) (t : ℚ)
    (e : CompressionExc) : (failureResult sz p t e).success = false := rfl

@[simp] theorem failureResult_error_message (sz : String → Option ℚ) (p : String) (t : ℚ)
    (e : CompressionExc) :
    (failureResult sz p t e).error_message = some (get_compression_error_message e) := rfl

/-- C9: calculate_compression_ratio returns 0.0 whenever the original size is
non-positive (the division is guarded and cannot raise), and returns
compressed/original otherwise. -/
theorem c9_guarded_division (a b : ℚ) :
    (a ≤ 0 → fractionOfOriginal a b = 0) ∧ (0 < a → fractionOfOriginal a b = b / a) := by
  constructor
  · intro h
    simp [fractionOfOriginal, h]
  · intro h
    rw [fractionOfOriginal, if_neg (not_le.mpr h), qdiv_eq]

/-- Witness for C9 at the concrete inputs (-2, 5) and (4, 2). -/
theorem c9_witness : fractionOfOriginal (-2) 5 = 0 ∧ fractionOfOriginal 4 2 = 2 / 4 :=
  ⟨(c9_guarded_division (-2) 5).1 (by norm_num), (c9_guarded_division 4 2).2 (by norm_num)⟩

/-- C10: when the original width is below 320 (resp. height below 240) the
computed output dimension exceeds the original one, because the 320x240
minimum floor is applied after downscaling and even-rounding. -/
theorem c10_minimum_floor_upscales (ow oh mw mh : ℤ)
    (_hw : 0 < ow) (_hh : 0 < oh) (_hmw : 0 < mw) (_hmh : 0 < mh) :
    (ow < 320 → ow < (calcOutputDimensions ow oh mw mh).1) ∧
    (oh < 240 → oh < (calcOutputDimensions ow oh mw mh).2) := by
  have h1 : (320 : ℤ) ≤ (calcOutputDimensions ow oh mw mh).1 := le_max_right _ _
  have h2 : (240 : ℤ) ≤ (calcOutputDimensions ow oh mw mh).2 := le_max_right _ _
  exact ⟨fun h => lt_of_lt_of_le h h1, fun h => lt_of_lt_of_le h h2⟩

/-- Witness for C10: a 300x500 video scaled for a 1280x720 cap comes out
wider than it went in. -/
theorem c10_witness : (300 : ℤ) < 320 ∧ (300 : ℤ) < (calcOutputDimensions 300 500 1280 720).1 :=
  ⟨by norm_num,
   (c10_minimum_floor_upscales 300 500 1280 720 (by norm_num) (by norm_num)
      (by norm_num) (by norm_num)).1 (by norm_num)⟩

/-- C6 counterexample: for a 100x1000 original under a 1280x720 cap the code
returns 320x720, whose width differs from the aspect-implied width
(720 * 100/1000 = 72) by 248 pixels, far beyond the claimed plus-or-minus
one pixel tolerance (stated cross-multiplied by the original height 1000);
and nothing is skipped. -/
theorem c6_counterexample :
    calcOutputDimensions 100 1000 1280 720 = (320, 720) ∧
    ¬ ((calcOutputDimensions 100 1000 1280 720).1 * 1000
        - (calcOutputDimensions 100 1000 1280 720).2 * 100 ≤ 1000) := by decide

/-- C6 (amended): computed output dimensions are always even and at least
320x240, and since their pixel count therefore never falls below 320*240 the
minimum-pixels skip check of the strategy loop can never fire; the 320x240
floor is applied last and may break the aspect ratio (see the
counterexample), and no attempt is ever skipped. -/
theorem c6_dimension_bounds (ow oh mw mh : ℤ)
    (_hw : 0 < ow) (_hh : 0 < oh) (_hmw : 0 < mw) (_hmh : 0 < mh) :
    2 ∣ (calcOutputDimensions ow oh mw mh).1 ∧
    2 ∣ (calcOutputDimensions ow oh mw mh).2 ∧
    320 ≤ (calcOutputDimensions ow oh mw mh).1 ∧
    240 ≤ (calcOutputDimensions ow oh mw mh).2 ∧
    ¬ ((calcOutputDimensions ow oh mw mh).1 * (calcOutputDimensions ow oh mw mh).2
        < 320 * 240) := by
  have hshape : calcOutputDimensions ow oh mw mh
      = (max ((scaledDims ow oh mw mh).1 - (scaledDims ow oh mw mh).1 % 2) 320,
         max ((scaledDims ow oh mw mh).2 - (scaledDims ow oh mw mh).2 % 2) 240) := rfl
  rw [hshape]
  set x := (scaledDims ow oh mw mh).1 with hx
  set y := (scaledDims ow oh mw mh).2 with hy
  have hdx : 2 ∣ max (x - x % 2) 320 := by
    rcases max_choice (x - x % 2) 320 with h | h <;> rw [h] <;> omega
  have hdy : 2 ∣ max (y - y % 2) 240 := by
    rcases max_choice (y - y % 2) 240 with h | h <;> rw [h] <;> omega
  have hbx : (320 : ℤ) ≤ max (x - x % 2) 320 := le_max_right _ _
  have hby : (240 : ℤ) ≤ max (y - y % 2) 240 := le_max_right _ _
  refine ⟨hdx, hdy, hbx, hby, not_lt.mpr ?_⟩
  have : (320 : ℤ) * 240 ≤ max (x - x % 2) 320 * max (y - y % 2) 240 :=
    mul_le_mul hbx hby (by norm_num) (by linarith)
  linarith

/-- Witness for C6 at the concrete input 100x1000 with a 1280x720 cap. -/
theorem c6_witness :
    2 ∣ (calcOutputDimensions 100 1000 1280 720).1 ∧
    2 ∣ (calcOutputDimensions 100 1000 1280 720).2 ∧
    320 ≤ (calcOutputDimensions 100 1000 1280 720).1 ∧
    240 ≤ (calcOutputDimensions 100 1000 1280 720).2 ∧
    ¬ ((calcOutputDimensions 100 1000 1280 720).1 * (calcOutputDimensions 100 1000 1280 720).2
        < 320 * 240) :=
  c6_dimension_bounds 100 1000 1280 720 (by norm_num) (by norm_num) (by norm_num)
    (by norm_num)

theorem validResolutionLevels_eq (vw vh : ℤ) (mr : ℤ × ℤ) :
    validResolutionLevels vw vh mr
      = (vw, vh) :: ([mr, (854, 480), (640, 360)].filter
          (fun p => decide (p.1 ≤ vw) || decide (p.2 ≤ vh))) := by
  simp [validResolutionLevels, resolutionLevels, List.filter_cons, List.isEmpty_cons]

/-- C5 (amended): the resolution ladder always starts with the original
resolution (hence is non-empty and contains it), and every entry it keeps has
width at most the original width OR height at most the original height - the
source filter keeps an entry when either dimension fits, it does not
deduplicate, and the pixel counts need not be non-increasing (see the
counterexample). -/
theorem c5_ladder_shape (vw vh : ℤ) (mr : ℤ × ℤ) :
    (validResolutionLevels vw vh mr).head? = some (vw, vh) ∧
    ∀ p ∈ validResolutionLevels vw vh mr, p.1 ≤ vw ∨ p.2 ≤ vh := by
  rw [validResolutionLevels_eq]
  constructor
  · rfl
  · intro p hp
    rcases List.mem_cons.mp hp with h | h
    · subst h
      exact Or.inl le_rfl
    · have h2 := List.of_mem_filter h
      simpa using h2

/-- C5 counterexample: with the original equal to the configured maximum
(1280x720) the ladder contains that entry twice (not deduplicated); for a
100x800 original the ladder keeps 1280x720, an entry wider than the original,
and its pixel count sequence [80000, 921600, 409920, 230400] increases. -/
theorem c5_counterexample :
    pairwiseDistinct (validResolutionLevels 1280 720 (1280, 720)) = false ∧
    ((1280, 720) ∈ validResolutionLevels 100 800 (1280, 720) ∧
      ¬ ((1280 : ℤ) ≤ 100 ∧ (720 : ℤ) ≤ 800)) ∧
    nonIncreasing ((validResolutionLevels 100 800 (1280, 720)).map
      (fun p => p.1 * p.2)) = false := by
  decide

/-- Witness for C5 at a 1920x1080 original with the default 1280x720 cap. -/
theorem c5_witness :
    (validResolutionLevels 1920 1080 (1280, 720)).head? = some (1920, 1080) ∧
    ((854 : ℤ) ≤ 1920 ∨ (480 : ℤ) ≤ 1080) :=
  ⟨(c5_ladder_shape 1920 1080 (1280, 720)).1,
   (c5_ladder_shape 1920 1080 (1280, 720)).2 (854, 480) (by decide)⟩

/-- C7 (amended): the four typed probing failures (missing input, corrupt
media, unsupported format, probe tool unavailable) are re-raised by the
estimator, not converted to the 120 s default; only an exception outside the
re-raise list returns the fixed default 120; and every successful probe
yields an estimate clamped into [10, 600] seconds. -/
theorem c7_estimator :
    (∀ e, isProbeReraised e = true →
        estimate_compression_time (Except.error e) = Except.error e) ∧
    (∀ e, isProbeReraised e = false →
        estimate_compression_time (Except.error e) = Except.ok 120) ∧
    (∀ vi, estimate_compression_time (Except.ok vi) = Except.ok (estimateSeconds vi) ∧
        10 ≤ estimateSeconds vi ∧ estimateSeconds vi ≤ 600) := by
  refine ⟨?_, ?_, ?_⟩
  · intro e he
    simp [estimate_compression_time, he]
  · intro e he
    simp [estimate_compression_time, he]
  · intro vi
    refine ⟨rfl, ?_, ?_⟩
    · exact le_max_left _ _
    · exact max_le (by norm_num) (min_le_left _ _)

/-- C7 counterexample: when probing fails because the probe tool is missing,
estimate_compression_time propagates the exception instead of returning the
claimed fixed default of 120 seconds. -/
theorem c7_counterexample :
    estimate_compression_time (Except.error CompressionExc.ffmpegNotFound)
      = Except.error CompressionExc.ffmpegNotFound ∧
    estimate_compression_time (Except.error CompressionExc.ffmpegNotFound)
      ≠ Except.ok 120 := by
  refine ⟨rfl, ?_⟩
  intro h
  simp [estimate_compression_time, isProbeReraised] at h

/-- Witness for C7 at the corrupt-media probing failure. -/
theorem c7_witness :
    isProbeReraised CompressionExc.videoCorrupted = true ∧
    estimate_compression_time (Except.error CompressionExc.videoCorrupted)
      = Except.error CompressionExc.videoCorrupted :=
  ⟨by decide, c7_estimator.1 CompressionExc.videoCorrupted (by decide)⟩

/-- C8: the metadata probe raises UnsupportedFormat when no video stream is
present, raises VideoCorrupted whenever the extracted width or height is
non-positive or the extracted duration is non-positive, and a frame-rate
fraction string with zero denominator performs no division: the fps field is
left at 0 and the probe still succeeds when the other validations pass. -/
theorem c8_probe_validation (pd : ProbeData) (size : ℚ) :
    (findVideoStream pd.streams = none →
      get_video_info true true size (Except.ok pd)
        = Except.error CompressionExc.unsupportedFormat) ∧
    (∀ vs, findVideoStream pd.streams = some vs →
      ((vs.width ≤ 0 ∨ vs.height ≤ 0 →
          get_video_info true true size (Except.ok pd)
            = Except.error CompressionExc.videoCorrupted) ∧
       (durationOf pd vs ≤ 0 →
          get_video_info true true size (Except.ok pd)
            = Except.error CompressionExc.videoCorrupted) ∧
       (∀ n, vs.r_frame_rate = some (FpsField.fractionStr n 0) →
          ¬ (vs.width ≤ 0 ∨ vs.height ≤ 0) → ¬ (durationOf pd vs ≤ 0) →
          get_video_info true true size (Except.ok pd)
            = Except.ok { width := vs.width
                          height := vs.height
                          duration := durationOf pd vs
                          fps := 0
                          bitrate := bitrateOf pd vs
                          codec := vs.codec_name.getD "unknown"
                          size_mb := size }))) := by
  constructor
  · intro h
    simp [get_video_info, h]
  · intro vs hvs
    refine ⟨?_, ?_, ?_⟩
    · intro hbad
      simp [get_video_info, hvs, hbad]
    · intro hbad
      by_cases hwh : vs.width ≤ 0 ∨ vs.height ≤ 0
      · simp [get_video_info, hvs, hwh]
      · simp [get_video_info, hvs, hwh, hbad]
    · intro n hfr hwh hdur
      simp [get_video_info, hvs, hwh, hdur, extractFps, hfr, fpsOfField]

/-- Witness for C8: a stream with frame rate "30/0" probes successfully with
fps 0. -/
theorem c8_witness :
    get_video_info true true 5 (Except.ok pdZeroDen)
      = Except.ok { width := 1280
                    height := 720
                    duration := 10
                    fps := 0
                    bitrate := 1000
                    codec := "h264"
                    size_mb := 5 } :=
  ((c8_probe_validation pdZeroDen 5).2 streamZeroDen (by decide)).2.2 30 (by decide)
    (by decide) (by decide)

theorem sizeLookup_video (env : Env) :
    sizeLookup env env.videoPath
      = if env.inputExists then some env.inputSizeMB else none := by
  simp [sizeLookup]

theorem sizeLookup_temp (env : Env) (h : env.videoPath ≠ env.tempPath) :
    sizeLookup env env.tempPath = env.tempOutput := by
  simp only [sizeLookup]
  rw [if_neg (Ne.symm h)]
  simp

theorem create_res_sizes (sz : String → Option ℚ) (p cp : String) (t : ℚ)
    (h : (sz cp).isSome = true) :
    (create_compression_result sz true p (some cp) t none).compressed_size_mb
        = some (get_file_size_mb sz cp) ∧
    (create_compression_result sz true p (some cp) t none).ratio_to_original
        = some (fractionOfOriginal (get_file_size_mb sz p) (get_file_size_mb sz cp)) := by
  simp [create_compression_result, h]

/-- Every run of compress_if_needed returns either the fast-path or
compressed success result, or a failureResult built from the caught
exception. -/
theorem compress_result_shape (env : Env) (m : ℚ) (t : Option ℚ) :
    (∃ p, (compress_if_needed env m t).1
        = create_compression_result (sizeLookup env) true env.videoPath (some p)
            env.elapsed none) ∨
    (∃ e, (compress_if_needed env m t).1
        = failureResult (sizeLookup env) env.videoPath env.elapsed e) := by
  simp only [compress_if_needed]
  repeat' split
  all_goals first
    | exact Or.inl ⟨_, rfl⟩
    | exact Or.inr ⟨_, rfl⟩

/-- C1: compress_if_needed is a total function into CompressionResult (no
exception reaches the caller: every raise site of the source is routed into
an except-handler producing a result), and whenever the result reports
failure its errorMessage is non-null. -/
theorem c1_failure_has_message (env : Env) (m : ℚ) (t : Option ℚ)
    (h : (compress_if_needed env m t).1.success = false) :
    ((compress_if_needed env m t).1.error_message).isSome = true := by
  rcases compress_result_shape env m t with ⟨p, hp⟩ | ⟨e, he⟩
  · rw [hp] at h
    simp at h
  · rw [he]
    simp

/-- Witness for C1: the missing-encoder environment (Scenario C). -/
theorem c1_witness :
    (compress_if_needed envNoFfmpeg 50 none).1.success = false ∧
    ((compress_if_needed envNoFfmpeg 50 none).1.error_message).isSome = true :=
  ⟨by decide, c1_failure_has_message envNoFfmpeg 50 none (by decide)⟩

/-- C3 (amended): provided the input file exists and the FFmpeg availability
check passes, any file at or under the limit short-circuits: success,
compressedPath equal to originalPath, and zero encoder invocations.  (The
unamended "regardless of other environmental conditions" fails: the FFmpeg
check precedes the size gate, see the counterexample.) -/
theorem c3_fast_path (env : Env) (m : ℚ) (t : Option ℚ)
    (hex : env.inputExists = true) (hff : env.ffmpegAvailable = true)
    (hsz : env.inputSizeMB ≤ m) :
    (compress_if_needed env m t).1.success = true ∧
    (compress_if_needed env m t).1.compressed_path = some env.videoPath ∧
    (compress_if_needed env m t).2 = 0 := by
  have hv : sizeLookup env env.videoPath = some env.inputSizeMB := by
    rw [sizeLookup_video, hex]
    rfl
  have hcheck : check_video_size_against_limit (sizeLookup env) env.videoPath m
      = (false, env.inputSizeMB) := by
    rw [check_video_size_against_limit, hv]
    simp [not_lt.mpr hsz]
  simp [compress_if_needed, hv, hff, hcheck]

/-- C3 counterexample: a 10 MB input under the 50 MB limit still fails when
FFmpeg is unavailable, because the availability check runs before the size
gate. -/
theorem c3_counterexample :
    envNoFfmpeg.inputSizeMB ≤ 50 ∧
    (compress_if_needed envNoFfmpeg 50 none).1.success = false := by decide

/-- Witness for C3: the 10 MB input with FFmpeg available. -/
theorem c3_witness :
    (compress_if_needed envUnderLimit 50 none).1.success = true ∧
    (compress_if_needed envUnderLimit 50 none).1.compressed_path
      = some envUnderLimit.videoPath ∧
    (compress_if_needed envUnderLimit 50 none).2 = 0 :=
  c3_fast_path envUnderLimit 50 none (by decide) (by decide) (by decide)

/-- C4 (amended): every successful compress_if_needed result reports a
compressed size no larger than max_size_mb (the size limit of the call, not
the configured target, which the fast path ignores) and a ratio in [0, 1]
(0 is attained by a 0-byte input, so 0 < ratio does not hold in general). -/
theorem c4_success_bounds (env : Env) (m : ℚ) (t : Option ℚ)
    (hin : 0 ≤ env.inputSizeMB) (htmp : ∀ q, env.tempOutput = some q → 0 ≤ q)
    (hne : env.videoPath ≠ env.tempPath)
    (hs : (compress_if_needed env m t).1.success = true) :
    ∃ s r, (compress_if_needed env m t).1.compressed_size_mb = some s ∧ s ≤ m ∧
      (compress_if_needed env m t).1.ratio_to_original = some r ∧ 0 ≤ r ∧ r ≤ 1 := by
  by_cases hex : env.inputExists = true
  case neg =>
    have hv : sizeLookup env env.videoPath = none := by
      rw [sizeLookup_video, if_neg hex]
    simp [compress_if_needed, hv] at hs
  case pos =>
  have hv : sizeLookup env env.videoPath = some env.inputSizeMB := by
    rw [sizeLookup_video, hex]
    rfl
  have hgv : get_file_size_mb (sizeLookup env) env.videoPath = env.inputSizeMB := by
    rw [get_file_size_mb, hv]
  by_cases hff : env.ffmpegAvailable = true
  case neg =>
    simp [compress_if_needed, hv, hff] at hs
  case pos =>
  by_cases hbig : m < env.inputSizeMB
  case neg =>
    -- fast path: the input is already under the limit
    have hcheck : check_video_size_against_limit (sizeLookup env) env.videoPath m
        = (false, env.inputSizeMB) := by
      rw [check_video_size_against_limit, hv]
      simp [hbig]
    have hres : compress_if_needed env m t
        = (create_compression_result (sizeLookup env) true env.videoPath
            (some env.videoPath) env.elapsed none, 0) := by
      simp [compress_if_needed, hv, hff, hcheck]
    have hsome : ((sizeLookup env) env.videoPath).isSome = true := by
      rw [hv]
      rfl
    have hfields := create_res_sizes (sizeLookup env) env.videoPath env.videoPath
      env.elapsed hsome
    refine ⟨env.inputSizeMB, fractionOfOriginal env.inputSizeMB env.inputSizeMB,
      ?_, not_lt.mp hbig, ?_, ?_, ?_⟩
    · rw [hres]
      rw [hfields.1, hgv]
    · rw [hres]
      rw [hfields.2, hgv]
    · rcases eq_or_lt_of_le hin with h0 | h0
      · rw [fractionOfOriginal, if_pos (le_of_eq h0.symm)]
      · rw [fractionOfOriginal, if_neg (not_le.mpr h0), qdiv_eq]
        positivity
    · rcases eq_or_lt_of_le hin with h0 | h0
      · rw [fractionOfOriginal, if_pos (le_of_eq h0.symm)]
        norm_num
      · rw [fractionOfOriginal, if_neg (not_le.mpr h0), qdiv_eq,
          div_self (ne_of_gt h0)]
  case pos =>
  -- compression path
  have hcheck : check_video_size_against_limit (sizeLookup env) env.videoPath m
      = (true, env.inputSizeMB) := by
    rw [check_video_size_against_limit, hv]
    simp [hbig]
  by_cases hdisk : env.diskOk (qmul env.inputSizeMB 2) = false
  case pos =>
    simp [compress_if_needed, hv, hff, hcheck, hdisk] at hs
  case neg =>
  rcases hct : env.createTemp with _ | e
  case some =>
    simp [compress_if_needed, hv, hff, hcheck, hdisk, hct] at hs
  case none =>
  rcases hcr : env.compressResult with e | b
  case error =>
    simp [compress_if_needed, hv, hff, hcheck, hdisk, hct, hcr] at hs
  case ok =>
  by_cases hval : (b && validate_file_size (sizeLookup env) env.tempPath m) = true
  case neg =>
    simp only [Bool.not_eq_true] at hval
    simp [compress_if_needed, hv, hff, hcheck, hdisk, hct, hcr, hval] at hs
  case pos =>
  have hres : compress_if_needed env m t
      = (create_compression_result (sizeLookup env) true env.videoPath
          (some env.tempPath) env.elapsed none, env.encoderInvocations) := by
    simp [compress_if_needed, hv, hff, hcheck, hdisk, hct, hcr, hval]
  have hvalid : validate_file_size (sizeLookup env) env.tempPath m = true := by
    have h2 := hval
    simp only [Bool.and_eq_true] at h2
    exact h2.2
  rcases hto : env.tempOutput with _ | tq
  case none =>
    rw [validate_file_size, sizeLookup_temp env hne, hto] at hvalid
    cases hvalid
  case some =>
  have hst : sizeLookup env env.tempPath = some tq := by
    rw [sizeLookup_temp env hne, hto]
  have htq : tq ≤ m := by
    rw [validate_file_size, hst] at hvalid
    exact of_decide_eq_true hvalid
  have htq0 : 0 ≤ tq := htmp tq hto
  have hgt : get_file_size_mb (sizeLookup env) env.tempPath = tq := by
    rw [get_file_size_mb, hst]
  have hsome : ((sizeLookup env) env.tempPath).isSome = true := by
    rw [hst]
    rfl
  have hfields := create_res_sizes (sizeLookup env) env.videoPath env.tempPath
    env.elapsed hsome
  have hspos : 0 < env.inputSizeMB := lt_of_le_of_lt (le_trans htq0 htq) hbig
  refine ⟨tq, fractionOfOriginal env.inputSizeMB tq, ?_, htq, ?_, ?_, ?_⟩
  · rw [hres]
    rw [hfields.1, hgt]
  · rw [hres]
    rw [hfields.2, hgv, hgt]
  · rw [fractionOfOriginal, if_neg (not_le.mpr hspos), qdiv_eq]
    positivity
  · rw [fractionOfOriginal, if_neg (not_le.mpr hspos), qdiv_eq]
    rw [div_le_one hspos]
    exact le_of_lt (lt_of_le_of_lt htq hbig)

/-- C4 counterexample: a 48 MB input under the 50 MB limit with a configured
target of 45 MB succeeds via the fast path with compressedSizeMB 48 > 45,
violating "compressedSizeMB at most the configured target"; and a 0-byte
input succeeds with ratio 0, violating "0 < ratio". -/
theorem c4_counterexample :
    (compress_if_needed envTargetMiss 50 (some 45)).1.success = true ∧
    (compress_if_needed envTargetMiss 50 (some 45)).1.compressed_size_mb = some 48 ∧
    ¬ ((48 : ℚ) ≤ 45) ∧
    (compress_if_needed envZeroSize 50 none).1.success = true ∧
    (compress_if_needed envZeroSize 50 none).1.ratio_to_original = some 0 ∧
    ¬ ((0 : ℚ) < 0) := by decide

/-- Witness for C4 at the 10 MB, 50 MB-limit environment. -/
theorem c4_witness :
    ∃ s r, (compress_if_needed envUnderLimit 50 none).1.compressed_size_mb = some s ∧
      s ≤ 50 ∧ (compress_if_needed envUnderLimit 50 none).1.ratio_to_original = some r ∧
      0 ≤ r ∧ r ≤ 1 :=
  c4_success_bounds envUnderLimit 50 none (by decide)
    (fun q hq => Option.noConfusion hq) (by decide) (by decide)

/-- Unfolding lemma: the timeout count of a cons. -/
theorem timeoutsIn_cons (a : (ℤ × ℤ) × AttemptOutcome)
    (l : List ((ℤ × ℤ) × AttemptOutcome)) :
    timeoutsIn (a :: l)
      = if notSkipped a && isTimeoutOutcome a.2 then timeoutsIn l + 1
        else timeoutsIn l := by
  rw [timeoutsIn, List.filter_cons]
  split <;> rfl

/-- Unfolding lemma: the executed count of a cons. -/
theorem executedCount_cons (a : (ℤ × ℤ) × AttemptOutcome)
    (l : List ((ℤ × ℤ) × AttemptOutcome)) :
    executedCount (a :: l)
      = if notSkipped a then executedCount l + 1 else executedCount l := by
  rw [executedCount, List.filter_cons]
  split <;> rfl

/-- C2 (amended): the timeout counter of the strategy loop is cumulative and
never reset, so as soon as the third attempt times out - whether or not the
three timeouts were consecutive - the loop aborts at that attempt with the
circuit-breaker Timeout error, leaving every later ladder combination
unattempted: over any prefix of non-returning attempts holding two non-skipped
timeouts, a further timeout ends the run with exactly one more encoder
invocation. -/
theorem c2_cumulative_timeout_abort (target : ℚ) (tmsg : String)
    (pre : List ((ℤ × ℤ) × AttemptOutcome)) (d : ℤ × ℤ)
    (rest : List ((ℤ × ℤ) × AttemptOutcome)) (tc : ℕ) (le : Option CompressionExc)
    (hpass : pre.all (noEarlyReturn target) = true)
    (hcount : tc + timeoutsIn pre = 2)
    (hd : notSkipped (d, AttemptOutcome.timeout) = true) :
    runAttempts target tmsg (pre ++ (d, AttemptOutcome.timeout) :: rest) tc le
      = (StratOutcome.raised (CompressionExc.timeout multiTimeoutMsg),
          executedCount pre + 1) := by
  induction pre generalizing tc le with
  | nil =>
      have htc : tc = 2 := by
        simpa [timeoutsIn] using hcount
      subst htc
      have hd2 : ¬ (d.1 * d.2 < 320 * 240) := by
        rw [notSkipped] at hd
        simpa using hd
      rw [List.nil_append]
      simp only [runAttempts, if_neg hd2]
      rfl
  | cons a pre ih =>
      obtain ⟨da, oa⟩ := a
      rw [List.all_cons, Bool.and_eq_true] at hpass
      obtain ⟨hpa, hptail⟩ := hpass
      rw [List.cons_append]
      by_cases hna : notSkipped (da, oa) = true
      · have hna2 : ¬ (da.1 * da.2 < 320 * 240) := by
          rw [notSkipped] at hna
          simpa using hna
        cases oa with
        | ok s =>
            have hbig : ¬ (s ≤ target) := by
              rw [noEarlyReturn, hna] at hpa
              simpa using hpa
            have hcount2 : tc + timeoutsIn pre = 2 := by
              rw [timeoutsIn_cons, if_neg (by simp [isTimeoutOutcome])] at hcount
              exact hcount
            simp only [runAttempts, if_neg hna2, if_neg hbig]
            rw [ih tc le hptail hcount2, executedCount_cons, if_pos hna]
        | timeout =>
            have hcount2 : (tc + 1) + timeoutsIn pre = 2 := by
              rw [timeoutsIn_cons, if_pos (by simp [isTimeoutOutcome, hna])] at hcount
              omega
            have hlt : ¬ (tc + 1 ≥ 3) := by omega
            simp only [runAttempts, if_neg hna2, if_neg hlt]
            rw [ih (tc + 1) (some (CompressionExc.timeout tmsg)) hptail hcount2,
              executedCount_cons, if_pos hna]
        | fail e =>
            have hcount2 : tc + timeoutsIn pre = 2 := by
              rw [timeoutsIn_cons, if_neg (by simp [isTimeoutOutcome])] at hcount
              exact hcount
            simp only [runAttempts, if_neg hna2]
            rw [ih tc (some e) hptail hcount2, executedCount_cons, if_pos hna]
      · have hlt : da.1 * da.2 < 320 * 240 := by
          rw [notSkipped] at hna
          simpa using hna
        have hcount2 : tc + timeoutsIn pre = 2 := by
          rw [timeoutsIn_cons, if_neg (by simp [hna])] at hcount
          exact hcount
        simp only [runAttempts, if_pos hlt]
        rw [ih tc le hptail hcount2, executedCount_cons, if_neg hna]

/-- C2 counterexample: with the default ladder (12 attempts) and timeouts at
attempts 1, 3 and 4 (attempt 2 failing differently), the strategy aborts with
the circuit-breaker Timeout after 4 encoder invocations although no 3
consecutive attempts timed out - refuting that the abort requires
consecutiveness. -/
theorem c2_counterexample :
    progressive_compression_strategy cfgDefault 45 viLarge oracleScattered
      = (StratOutcome.raised (CompressionExc.timeout multiTimeoutMsg), 4) ∧
    threeConsecutiveTimeouts
      [oracleScattered 0, oracleScattered 1, oracleScattered 2, oracleScattered 3]
      = false ∧
    (strategyAttemptDims cfgDefault viLarge).length = 12 := by decide

/-- Witness for C2: a concrete prefix with two scattered timeouts followed by
a third timeout aborts immediately, with one attempt left untried. -/
theorem c2_witness :
    runAttempts 45 "t"
      ([((1920, 1080), AttemptOutcome.timeout),
        ((1920, 1080), AttemptOutcome.fail (CompressionExc.base "x")),
        ((1920, 1080), AttemptOutcome.timeout)]
        ++ ((1920, 1080), AttemptOutcome.timeout)
          :: [((1920, 1080), AttemptOutcome.ok 10)]) 0 none
      = (StratOutcome.raised (CompressionExc.timeout multiTimeoutMsg), 4) :=
  c2_cumulative_timeout_abort 45 "t" _ (1920, 1080) _ 0 none (by decide) (by decide)
    (by decide)

end Vidzilla
